import Mathlib

/-!
Shallow embedding of the tracking-signal classification engine of the
`tracking-ver` repository (sources: `src/web-server.js`, `src/vercel-server.js`
and the unnamed CLI variant `src/unnamed/part_000`; the three variants share
one identical engine, duplicated verbatim).

The engine consists of:
* a per-request handler (`page.on('request')`) that classifies every request
  URL into one of three categories (`gtm`, `ga`, `other`), extracts GTM
  container ids and GA4 measurement ids with JavaScript regexes, and
  accumulates them in `Set`s plus per-category counters plus an ordered
  `networkRequests` list;
* a content scan that extracts `GTM-[A-Z0-9]+` matches from page HTML and
  script text;
* consent-mode detection over the recorded URL list (`gcs=` parameters) and a
  positional decoder of the first `gcd=` token;
* a priority-ordered tracking-type cascade producing one label.

Strings are modelled as Lean `String`, JavaScript `String.prototype.includes`
as substring (infix) containment on the character lists, and the specific
regexes used by the code as explicit leftmost-match scanners.
-/

namespace TrackingVer

/-- JavaScript `url.includes(needle)`: `needle` occurs as a contiguous
substring of `hay`. -/
def includesStr (hay needle : String) : Bool :=
  decide (needle.data <:+: hay.data)

/-- Character class `[A-Z0-9]` of the case-sensitive regexes. -/
def isUpperAlnum (c : Char) : Bool :=
  ('A' ≤ c && c ≤ 'Z') || ('0' ≤ c && c ≤ '9')

/-- Character class `[A-Z0-9]` under the JavaScript `i` flag: it then also
matches lowercase letters. -/
def isAlnumCI (c : Char) : Bool :=
  ('A' ≤ c && c ≤ 'Z') || ('a' ≤ c && c ≤ 'z') || ('0' ≤ c && c ≤ '9')

/-- Case-insensitive character comparison used by regexes with the `i` flag. -/
def charEqCI (a b : Char) : Bool :=
  a.toLower == b.toLower

/-- Case-sensitive character comparison. -/
def charEqCS (a b : Char) : Bool :=
  a == b

/-- Match a literal pattern at the head of the input under the character
comparison `eq`, returning the consumed original characters (JavaScript
captures preserve the original text) and the rest of the input. -/
def stripLitKeep (eq : Char → Char → Bool) : List Char → List Char → Option (List Char × List Char)
  | [], cs => some ([], cs)
  | _ :: _, [] => none
  | p :: ps, c :: cs =>
      if eq p c then
        match stripLitKeep eq ps cs with
        | some (ks, rest) => some (c :: ks, rest)
        | none => none
      else none

/-- Greedy run of characters satisfying `f` (the `+`/`*` of a character
class), returning the run and the rest. -/
def takeRun (f : Char → Bool) : List Char → List Char × List Char
  | [] => ([], [])
  | c :: cs =>
      if f c then
        let r := takeRun f cs
        (c :: r.1, r.2)
      else ([], c :: cs)

/-- Leftmost-match scan: try the position matcher `t` at every start
position, left to right, as a JavaScript regex engine does. -/
def scanFirst {α : Type} (t : List Char → Option α) : List Char → Option α
  | [] => none
  | c :: cs =>
      match t (c :: cs) with
      | some r => some r
      | none => scanFirst t cs

/-- Position matcher for a pattern `lit(cap[class]+)`: literal `lit`, then a
capture beginning with the literal `cap` followed by one or more characters
of class `cls`.  Returns the captured text. -/
def tryLitCap (eq : Char → Char → Bool) (cls : Char → Bool) (lit cap : List Char)
    (cs : List Char) : Option String :=
  match stripLitKeep eq lit cs with
  | some (_, r1) =>
      match stripLitKeep eq cap r1 with
      | some (k, r2) =>
          let run := takeRun cls r2
          if run.1.isEmpty then none else some ⟨k ++ run.1⟩
      | none => none
  | none => none

/-- Position matcher for a pattern `[?&]lit(cap[class]+)`. -/
def tryParamCap (eq : Char → Char → Bool) (cls : Char → Bool) (lit cap : List Char) :
    List Char → Option String
  | [] => none
  | c :: cs =>
      if c == '?' || c == '&' then tryLitCap eq cls lit cap cs else none

/-- `url.match(/[?&]id=(GTM-[A-Z0-9]+)/i)`, first capture. -/
def gtmMatch1 (url : String) : Option String :=
  scanFirst (tryParamCap charEqCI isAlnumCI "id=".data "GTM-".data) url.data

/-- `url.match(/\/gtm\.js\?id=(GTM-[A-Z0-9]+)/i)`, first capture. -/
def gtmMatch2 (url : String) : Option String :=
  scanFirst (tryLitCap charEqCI isAlnumCI "/gtm.js?id=".data "GTM-".data) url.data

/-- Global scan for `/(GTM-[A-Z0-9]+)/g`: all matches, case-sensitive,
resuming after the end of each match.  `fuel` bounds the recursion; it is
called with the input length, which suffices since every step consumes at
least one character. -/
def scanGtmCS : Nat → List Char → List String
  | 0, _ => []
  | _, [] => []
  | fuel + 1, c :: cs =>
      match stripLitKeep charEqCS "GTM-".data (c :: cs) with
      | some (k, r) =>
          let run := takeRun isUpperAlnum r
          if run.1.isEmpty then scanGtmCS fuel cs
          else (⟨k ++ run.1⟩ : String) :: scanGtmCS fuel run.2
      | none => scanGtmCS fuel cs

/-- `url.match(/(GTM-[A-Z0-9]+)/g)` (empty list when there is no match). -/
def gtmMatch3 (url : String) : List String :=
  scanGtmCS url.data.length url.data

/-- `url.match(/[?&]id=(G-[A-Z0-9]+)/i)`, first capture (GA4 id riding on a
`googletagmanager.com` load). -/
def ga4FromGtmMatch (url : String) : Option String :=
  scanFirst (tryParamCap charEqCI isAlnumCI "id=".data "G-".data) url.data

/-- `url.match(/[?&]tid=(G-[A-Z0-9]+)/i)`, first capture. -/
def tidMatchCI (url : String) : Option String :=
  scanFirst (tryParamCap charEqCI isAlnumCI "tid=".data "G-".data) url.data

/-- `url.match(/[?&]tid=(G-[A-Z0-9]+)/)` (no `i` flag; used in the
custom-endpoint branch condition and in `hasCustomAnalytics`). -/
def tidMatchCS (url : String) : Option String :=
  scanFirst (tryParamCap charEqCS isUpperAlnum "tid=".data "G-".data) url.data

/-- JavaScript `Set.prototype.add` on an insertion-ordered list: append the
element only when it is not already present. -/
def addId (l : List String) (x : String) : List String :=
  if l.contains x then l else l ++ [x]

/-- Add an optional regex capture (`if (m) ids.add(m[1])`). -/
def addOpt (l : List String) : Option String → List String
  | some x => addId l x
  | none => l

/-- Add every element of a list (`matches.forEach(id => ids.add(id))`). -/
def addAll (l : List String) (xs : List String) : List String :=
  xs.foldl addId l

/-- The mutable aggregate of one site analysis: the two id `Set`s, the
`summary` counters and the ordered `networkRequests` list. -/
structure AggState where
  gtmIds : List String
  ga4Ids : List String
  gtm : Nat
  ga : Nat
  other : Nat
  networkRequests : List String
deriving Repr, DecidableEq

/-- Fresh per-analysis state (`new Set()`, zero counters, empty list). -/
def emptyAgg : AggState :=
  { gtmIds := [], ga4Ids := [], gtm := 0, ga := 0, other := 0, networkRequests := [] }

/-- The `page.on('request')` handler: categorize the URL, push it onto
`networkRequests` in the `gtm`/`ga` branches, and extract ids. -/
def observeRequest (s : AggState) (url : String) : AggState :=
  if includesStr url "googletagmanager.com" then
    let ids1 := addOpt s.gtmIds (gtmMatch1 url)
    let ids2 := addOpt ids1 (gtmMatch2 url)
    let ids3 := addAll ids2 ((gtmMatch3 url).filter (fun id => id.startsWith "GTM-"))
    { s with gtm := s.gtm + 1,
             networkRequests := s.networkRequests ++ [url],
             gtmIds := ids3,
             ga4Ids := addOpt s.ga4Ids (ga4FromGtmMatch url) }
  else if includesStr url "google-analytics.com" then
    { s with ga := s.ga + 1,
             networkRequests := s.networkRequests ++ [url],
             ga4Ids := addOpt s.ga4Ids (tidMatchCI url) }
  else if includesStr url "/g/collect" || includesStr url "analytics." || (tidMatchCS url).isSome then
    match tidMatchCI url with
    | some id =>
        { s with ga := s.ga + 1,
                 networkRequests := s.networkRequests ++ [url],
                 ga4Ids := addId s.ga4Ids id }
    | none => { s with other := s.other + 1 }
  else
    { s with other := s.other + 1 }

/-- The request category recorded by the handler: exactly the branch of
`observeRequest` whose counter is incremented. -/
inductive ReqCategory where
  | gtm
  | ga
  | other
deriving Repr, DecidableEq

/-- The category `observeRequest` assigns to a URL (a projection of the
branch structure of the handler). -/
def reqCategory (url : String) : ReqCategory :=
  if includesStr url "googletagmanager.com" then ReqCategory.gtm
  else if includesStr url "google-analytics.com" then ReqCategory.ga
  else if includesStr url "/g/collect" || includesStr url "analytics." || (tidMatchCS url).isSome then
    if (tidMatchCI url).isSome then ReqCategory.ga else ReqCategory.other
  else ReqCategory.other

/-- Read one category counter of the aggregate. -/
def counterOf (s : AggState) : ReqCategory → Nat
  | ReqCategory.gtm => s.gtm
  | ReqCategory.ga => s.ga
  | ReqCategory.other => s.other

/-- The content scan (`pageContent.match(/GTM-[A-Z0-9]+/g)` and the identical
script/dataLayer scans): every global `GTM-[A-Z0-9]+` match is added to the
GTM id set.  No other aggregate field is touched; in particular the code has
no `G-[A-Z0-9]+` content scan. -/
def observeContent (s : AggState) (text : String) : AggState :=
  { s with gtmIds := addAll s.gtmIds (gtmMatch3 text) }

/-- `gtmLoadedInitially = networkRequests.some(url =>
url.includes('googletagmanager.com/gtm.js'))`. -/
def gtmLoadedInitially (s : AggState) : Bool :=
  s.networkRequests.any (fun url => includesStr url "googletagmanager.com/gtm.js")

/-- `gaCookielessHits = networkRequests.some(url =>
url.includes('google-analytics.com') && url.includes('gcs=G100'))`. -/
def gaCookielessHits (s : AggState) : Bool :=
  s.networkRequests.any (fun url =>
    includesStr url "google-analytics.com" && includesStr url "gcs=G100")

/-- The consent-mode detection loop: walk the recorded URLs in order; the
first URL containing `gcs=` decides both flags (`break` ends the loop), with
`gcs=G100`/`gcs=G110` giving version `v2` and any other `gcs=` giving `v1`. -/
def consentModeScan : List String → Bool × String
  | [] => (false, "Unknown")
  | url :: rest =>
      if includesStr url "gcs=G100" || includesStr url "gcs=G110" then (true, "v2")
      else if includesStr url "gcs=" then (true, "v1")
      else consentModeScan rest

/-- `url.match(/[?&]gcd=([^&]+)/)`, first capture: `gcd=` after `?` or `&`,
capturing the maximal nonempty run of characters other than `&`. -/
def gcdMatch (url : String) : Option String :=
  scanFirst
    (fun cs =>
      match cs with
      | [] => none
      | c :: rest =>
          if c == '?' || c == '&' then
            match stripLitKeep charEqCS "gcd=".data rest with
            | some (_, r1) =>
                let run := takeRun (fun ch => !(ch == '&')) r1
                if run.1.isEmpty then none else some ⟨run.1⟩
            | none => none
          else none)
    url.data

/-- Chunk-value mapping of the `gcd` decoder: `p3`, `p2`, `l1`, default. -/
def chunkState (code : String) : String :=
  if code == "p3" then "granted"
  else if code == "p2" then "denied"
  else if code == "l1" then "not set"
  else "unknown"

/-- The fixed consent-category enumeration, in the order the decoder assigns
chunks. -/
def consentTypes : List String :=
  ["ad_storage", "analytics_storage", "functionality_storage",
   "personalization_storage", "security_storage"]

/-- Assign two-character chunks to the remaining categories; the loop stops
when the categories are exhausted or fewer than two characters remain
(`idx + 1 < gcd.length`). -/
def decodeGcdAux : List String → List Char → List (String × String)
  | [], _ => []
  | _ :: _, [] => []
  | _ :: _, [_] => []
  | t :: ts, c1 :: c2 :: rest => (t, chunkState ⟨[c1, c2]⟩) :: decodeGcdAux ts rest

/-- Decode a `gcd` token: skip the first two characters (version marker),
then consume two-character chunks per category in `consentTypes` order.  The
result lists the assigned `(category, state)` pairs in insertion order, as
the code's `consentStates` object does. -/
def decodeGcd (gcd : String) : List (String × String) :=
  decodeGcdAux consentTypes (gcd.data.drop 2)

/-- The `gcd` extraction loop over the recorded URLs: decode the token of the
first URL matching the `gcd=` regex and stop (`break`); an empty result when
no URL matches. -/
def consentStatesOf : List String → List (String × String)
  | [] => []
  | url :: rest =>
      match gcdMatch url with
      | some gcd => decodeGcd gcd
      | none => consentStatesOf rest

/-- Cascade condition 1: any recorded URL contains
`googletagmanager.com/gtm.js`. -/
def condGtmJs (s : AggState) : Bool :=
  s.networkRequests.any (fun url => includesStr url "googletagmanager.com/gtm.js")

/-- The `hasCustomAnalytics` predicate of the classifier: some recorded URL
satisfies the custom-endpoint heuristics.  Note that the middle disjunct
`url.includes('analytics.')` has no `google-analytics.com` exclusion. -/
def hasCustomAnalytics (urls : List String) : Bool :=
  urls.any (fun url =>
    (includesStr url "/g/collect" && !includesStr url "google-analytics.com") ||
    includesStr url "analytics." ||
    ((tidMatchCS url).isSome && !includesStr url "google-analytics.com"))

/-- Cascade condition 2: `hasCustomAnalytics && ga4Ids.size > 0`. -/
def condCustom (s : AggState) : Bool :=
  hasCustomAnalytics s.networkRequests && !s.ga4Ids.isEmpty

/-- Cascade condition 3: a `googletagmanager.com/gtag/js` URL and a GA4 id. -/
def condGtagJs (s : AggState) : Bool :=
  s.networkRequests.any (fun url => includesStr url "googletagmanager.com/gtag/js")
    && !s.ga4Ids.isEmpty

/-- Cascade condition 4: any recorded URL contains `google-analytics.com`. -/
def condGa (s : AggState) : Bool :=
  s.networkRequests.any (fun url => includesStr url "google-analytics.com")

/-- Cascade condition 5: `summary.gtm === 0 && summary.ga === 0 &&
ga4Ids.size === 0`. -/
def condNoSignals (s : AggState) : Bool :=
  s.gtm == 0 && s.ga == 0 && s.ga4Ids.isEmpty

/-- Cascade condition 6: `ga4Ids.size > 0 && summary.ga === 0`. -/
def condBlocked (s : AggState) : Bool :=
  !s.ga4Ids.isEmpty && s.ga == 0

/-- The tracking-type classifier: the ordered if/else cascade of the code. -/
def trackingType (s : AggState) : String :=
  if condGtmJs s then "GTM (client-side)"
  else if condCustom s then "GA4 Server-Side (custom endpoint)"
  else if condGtagJs s then "GA4 gtag.js (client-side)"
  else if condGa s then "Google Analytics (client-side)"
  else if condNoSignals s then "Possibly server-side (no GTM/GA requests detected)"
  else if condBlocked s then "GA4 loaded but consent-blocked"
  else "Unknown"

/-- The cascade as an ordered condition/label list, for stating that the
classifier returns the label of the earliest matching condition. -/
def cascadeList : List ((AggState → Bool) × String) :=
  [(condGtmJs, "GTM (client-side)"),
   (condCustom, "GA4 Server-Side (custom endpoint)"),
   (condGtagJs, "GA4 gtag.js (client-side)"),
   (condGa, "Google Analytics (client-side)"),
   (condNoSignals, "Possibly server-side (no GTM/GA requests detected)"),
   (condBlocked, "GA4 loaded but consent-blocked")]

/-- Label of the earliest cascade condition satisfied by the state, with the
default label when none matches. -/
def firstMatchLabel (s : AggState) : String :=
  match cascadeList.find? (fun p => p.1 s) with
  | some p => p.2
  | none => "Unknown"

/-- The seven possible tracking-type labels. -/
def trackingLabels : List String :=
  ["GTM (client-side)", "GA4 Server-Side (custom endpoint)",
   "GA4 gtag.js (client-side)", "Google Analytics (client-side)",
   "Possibly server-side (no GTM/GA requests detected)",
   "GA4 loaded but consent-blocked", "Unknown"]

/-- The final per-site result record assembled by `analyzeWebsite` (the
fields the classification engine computes). -/
structure Verdict where
  gtmIds : List String
  ga4Ids : List String
  gtm : Nat
  ga : Nat
  other : Nat
  consentDetected : Bool
  consentVersion : String
  consentStates : List (String × String)
  trackingType : String
  gtmLoadedInitially : Bool
  gaCookielessHits : Bool
  networkRequests : Nat
deriving Repr, DecidableEq

/-- Assemble the Verdict from a final aggregate: a pure structural merge of
the aggregate with the consent scan, the `gcd` decode and the classifier. -/
def assembleVerdict (s : AggState) : Verdict :=
  { gtmIds := s.gtmIds,
    ga4Ids := s.ga4Ids,
    gtm := s.gtm,
    ga := s.ga,
    other := s.other,
    consentDetected := (consentModeScan s.networkRequests).1,
    consentVersion := (consentModeScan s.networkRequests).2,
    consentStates := consentStatesOf s.networkRequests,
    trackingType := trackingType s,
    gtmLoadedInitially := gtmLoadedInitially s,
    gaCookielessHits := gaCookielessHits s,
    networkRequests := s.networkRequests.length }

/-- One full analysis over the evidence the collaborators supply: fold the
request handler over the URLs in arrival order, fold the content scan over
the content blobs, then assemble the Verdict. -/
def runAnalysis (urls : List String) (contents : List String) : Verdict :=
  assembleVerdict (contents.foldl observeContent (urls.foldl observeRequest emptyAgg))

/-! ### Helper lemmas -/

theorem includesStr_iff {hay needle : String} :
    includesStr hay needle = true ↔ needle.data <:+: hay.data := by
  simp [includesStr]

theorem includesStr_of_infix {v a b : String} (hab : a.data <:+: b.data)
    (h : includesStr v b = true) : includesStr v a = true :=
  includesStr_iff.mpr (hab.trans (includesStr_iff.mp h))

theorem mem_addId_iff {l : List String} {x a : String} :
    a ∈ addId l x ↔ a ∈ l ∨ a = x := by
  unfold addId
  by_cases h : x ∈ l
  · rw [if_pos (List.elem_iff.mpr h)]
    constructor
    · exact Or.inl
    · rintro (ha | rfl)
      · exact ha
      · exact h
  · rw [if_neg (fun hc => h (List.elem_iff.mp hc))]
    simp [List.mem_append]

theorem addId_of_mem {l : List String} {x : String} (h : x ∈ l) :
    addId l x = l := by
  unfold addId
  rw [if_pos (List.elem_iff.mpr h)]

theorem mem_addId_self (l : List String) (x : String) : x ∈ addId l x :=
  mem_addId_iff.mpr (Or.inr rfl)

theorem mem_addId_of_mem {l : List String} {a : String} (x : String) (h : a ∈ l) :
    a ∈ addId l x :=
  mem_addId_iff.mpr (Or.inl h)

theorem addId_idem (l : List String) (x : String) :
    addId (addId l x) x = addId l x :=
  addId_of_mem (mem_addId_self l x)

theorem mem_addOpt_of_mem {l : List String} {a : String} (o : Option String) (h : a ∈ l) :
    a ∈ addOpt l o := by
  cases o with
  | none => exact h
  | some x => exact mem_addId_of_mem x h

theorem addOpt_of_forall {l : List String} {o : Option String}
    (h : ∀ x, o = some x → x ∈ l) : addOpt l o = l := by
  cases o with
  | none => rfl
  | some x => exact addId_of_mem (h x rfl)

theorem mem_addOpt_self {l : List String} {x : String} :
    x ∈ addOpt l (some x) :=
  mem_addId_self l x

theorem mem_addAll_of_mem {l : List String} {a : String} (xs : List String) (h : a ∈ l) :
    a ∈ addAll l xs := by
  induction xs generalizing l with
  | nil => exact h
  | cons y ys ih => exact ih (mem_addId_of_mem y h)

theorem mem_addAll_of_mem_arg {l xs : List String} {a : String} (h : a ∈ xs) :
    a ∈ addAll l xs := by
  induction xs generalizing l with
  | nil => cases h
  | cons y ys ih =>
      cases h with
      | head => exact mem_addAll_of_mem ys (mem_addId_self l a)
      | tail _ h => exact ih h

theorem addAll_of_subset {l xs : List String} (h : ∀ a ∈ xs, a ∈ l) :
    addAll l xs = l := by
  induction xs with
  | nil => rfl
  | cons y ys ih =>
      have hy : addId l y = l := addId_of_mem (h y (List.mem_cons_self y ys))
      show addAll (addId l y) ys = l
      rw [hy]
      exact ih (fun a ha => h a (List.mem_cons_of_mem y ha))

theorem nodup_addId {l : List String} {x : String} (h : l.Nodup) :
    (addId l x).Nodup := by
  unfold addId
  by_cases hm : x ∈ l
  · rw [if_pos (List.elem_iff.mpr hm)]
    exact h
  · rw [if_neg (fun hc => hm (List.elem_iff.mp hc))]
    simp [List.nodup_append, h, hm]

theorem nodup_addOpt {l : List String} (o : Option String) (h : l.Nodup) :
    (addOpt l o).Nodup := by
  cases o with
  | none => exact h
  | some x => exact nodup_addId h

theorem nodup_addAll {l : List String} (xs : List String) (h : l.Nodup) :
    (addAll l xs).Nodup := by
  induction xs generalizing l with
  | nil => exact h
  | cons y ys ih => exact ih (nodup_addId h)

theorem addOpt_idem (l : List String) (o : Option String) :
    addOpt (addOpt l o) o = addOpt l o :=
  addOpt_of_forall (fun x hx => by rw [hx]; exact mem_addOpt_self)

/-- Re-running the whole GTM id-extraction insertion sequence of the handler
on its own output changes nothing. -/
theorem gtmUpdate_idem (l : List String) (m1 m2 : Option String) (xs : List String) :
    addAll (addOpt (addOpt (addAll (addOpt (addOpt l m1) m2) xs) m1) m2) xs
      = addAll (addOpt (addOpt l m1) m2) xs := by
  have e1 : addOpt (addAll (addOpt (addOpt l m1) m2) xs) m1
      = addAll (addOpt (addOpt l m1) m2) xs :=
    addOpt_of_forall (fun x hx =>
      mem_addAll_of_mem xs (mem_addOpt_of_mem m2 (by rw [hx]; exact mem_addOpt_self)))
  rw [e1]
  have e2 : addOpt (addAll (addOpt (addOpt l m1) m2) xs) m2
      = addAll (addOpt (addOpt l m1) m2) xs :=
    addOpt_of_forall (fun x hx =>
      mem_addAll_of_mem xs (by rw [hx]; exact mem_addOpt_self))
  rw [e2]
  exact addAll_of_subset (fun a ha => mem_addAll_of_mem_arg ha)

/-! ### Concrete evidence used by counterexamples and witnesses -/

/-- A GA4 collection request to Google's own `google-analytics.com` host.
Note `"google-analytics.com"` contains the substring `"analytics."`. -/
def gaOnlyUrl : String := "https://www.google-analytics.com/g/collect?v=2&tid=G-ABC123"

/-- Script text referencing a GA4 measurement id. -/
def ga4ScriptText : String := "gtag(\"config\", \"G-QWERTY1\");"

/-- A GA request whose `gcs=` value is neither `G100` nor `G110`. -/
def gcsOtherUrl : String := "https://www.google-analytics.com/collect?gcs=G111"

/-- A GA request carrying `gcs=G100`. -/
def gcsV2Url : String := "https://www.google-analytics.com/collect?gcs=G100"

/-- A GA request carrying the §8 Scenario D `gcd` token. -/
def gcdUrl : String := "https://www.google-analytics.com/collect?gcd=13p3p3p2p5l1"

/-- A later GA request carrying a different, all-denied `gcd` token. -/
def gcdLaterUrl : String := "https://www.google-analytics.com/collect?gcd=13p2p2p2p2p2"

/-- A request that matches none of the tracking patterns. -/
def otherUrl : String := "https://example.com/page"

/-! ### C4 — consent-mode presence and version from `gcs=` -/

/-- Claim C4, counterexample: observing `gcsOtherUrl` (a `gcs=G111` request) before
`gcsV2Url` (a `gcs=G100` request) yields consent-mode version `"v1"`: the
detection loop breaks at the first URL containing `gcs=`, so a later
`gcs=G100` URL does not produce version `"v2"` as the claim requires. -/
theorem consentVersion_order_dependent :
    let s := observeRequest (observeRequest emptyAgg gcsOtherUrl) gcsV2Url
    s.networkRequests = [gcsOtherUrl, gcsV2Url] ∧
    includesStr gcsV2Url "gcs=G100" = true ∧
    consentModeScan s.networkRequests = (true, "v1") ∧
    (true, "v1") ≠ ((true, "v2") : Bool × String) := by
  decide

/-- Claim C4, amended: complete characterization of the consent-mode loop —
when no recorded URL contains `gcs=` (the `find?` is `none`) nothing is
detected and the version stays `"Unknown"`; otherwise the verdict is decided
by the FIRST URL containing `gcs=`, detected with version `v2` when that URL
contains `gcs=G100` or `gcs=G110` and with version `v1` otherwise, later
URLs being ignored. -/
theorem consentModeScan_first_gcs (l : List String) :
    consentModeScan l =
      match l.find? (fun u => includesStr u "gcs=") with
      | none => (false, "Unknown")
      | some u =>
          (true,
            if includesStr u "gcs=G100" || includesStr u "gcs=G110" then "v2" else "v1") := by
  induction l with
  | nil => rfl
  | cons u rest ih =>
      cases h : includesStr u "gcs=" with
      | true =>
          rw [List.find?_cons_of_pos (p := fun v => includesStr v "gcs=") rest h]
          show consentModeScan (u :: rest) =
            (true,
              if includesStr u "gcs=G100" || includesStr u "gcs=G110" then "v2" else "v1")
          unfold consentModeScan
          by_cases hv : (includesStr u "gcs=G100" || includesStr u "gcs=G110") = true
          · rw [if_pos hv, if_pos hv]
          · rw [if_neg hv, if_neg hv, if_pos h]
      | false =>
          have h100 : includesStr u "gcs=G100" = false := by
            by_contra hc
            have : includesStr u "gcs=" = true :=
              includesStr_of_infix (by decide) (Bool.of_not_eq_false hc)
            rw [this] at h
            cases h
          have h110 : includesStr u "gcs=G110" = false := by
            by_contra hc
            have : includesStr u "gcs=" = true :=
              includesStr_of_infix (by decide) (Bool.of_not_eq_false hc)
            rw [this] at h
            cases h
          rw [List.find?_cons_of_neg (p := fun v => includesStr v "gcs=") rest (by simp [h])]
          show consentModeScan (u :: rest) = _
          unfold consentModeScan
          rw [if_neg (by simp [h100, h110]), if_neg (by simp [h]), ih]

/-! ### C5 — the `gcd` chunk decoder on `13p3p3p2p5l1` -/

/-- Claim C5: decoding the token of `gcd=13p3p3p2p5l1` skips the two version
characters and assigns two-character chunks to the five categories in
enumeration order via `p3`→granted, `p2`→denied, `l1`→not set (the code's
spelling of `not_set`), anything else→unknown, giving exactly the claimed
ConsentState. -/
theorem decodeGcd_scenario_d :
    decodeGcd "13p3p3p2p5l1" =
      [("ad_storage", "granted"), ("analytics_storage", "granted"),
       ("functionality_storage", "denied"), ("personalization_storage", "unknown"),
       ("security_storage", "not set")] ∧
    chunkState "p3" = "granted" ∧ chunkState "p2" = "denied" ∧
    chunkState "l1" = "not set" ∧ chunkState "p5" = "unknown" := by
  decide

/-! ### C6 — first `gcd=` URL wins -/

/-- Claim C6: the ConsentState is decoded from the `gcd=` token of the first URL
(in observation order) carrying one; URLs after it — whatever `gcd=` tokens
they carry — have no effect on the result. -/
theorem consentStatesOf_first_gcd (l1 : List String) (u : String) (g : String)
    (l2 : List String)
    (h1 : ∀ v ∈ l1, gcdMatch v = none)
    (h2 : gcdMatch u = some g) :
    consentStatesOf (l1 ++ u :: l2) = decodeGcd g := by
  induction l1 with
  | nil =>
      show consentStatesOf (u :: l2) = _
      unfold consentStatesOf
      rw [h2]
  | cons v l1 ih =>
      have hv : gcdMatch v = none := h1 v (List.mem_cons_self v l1)
      show consentStatesOf (v :: (l1 ++ u :: l2)) = _
      unfold consentStatesOf
      rw [hv]
      exact ih (fun w hw => h1 w (List.mem_cons_of_mem v hw))

/-- Claim C6, witness: with `gcdUrl` first and a different all-denied token in a
later URL, the decoded state is exactly that of `gcdUrl`'s token. -/
theorem consentStatesOf_first_gcd_holds :
    consentStatesOf ([] ++ gcdUrl :: [gcdLaterUrl]) = decodeGcd "13p3p3p2p5l1" :=
  consentStatesOf_first_gcd [] gcdUrl "13p3p3p2p5l1" [gcdLaterUrl]
    (by intro v hv; cases hv) (by decide)

/-! ### C7 — the cascade is total and order-preserving -/

/-- Claim C7: the classifier is total — every aggregate state receives exactly one
of the seven labels — and it agrees with the first-matching-condition reading
of the ordered cascade, so a state satisfying several conditions always gets
the earliest-listed matching label. -/
theorem trackingType_total_ordered (s : AggState) :
    trackingType s = firstMatchLabel s ∧ trackingType s ∈ trackingLabels := by
  cases h1 : condGtmJs s <;> cases h2 : condCustom s <;> cases h3 : condGtagJs s <;>
    cases h4 : condGa s <;> cases h5 : condNoSignals s <;> cases h6 : condBlocked s <;>
    simp [trackingType, firstMatchLabel, cascadeList, trackingLabels, List.find?,
      h1, h2, h3, h4, h5, h6]

/-! ### C10 — `"GTM (client-side)"` exactly when `gtmLoadedInitially` -/

/-- Claim C10: the Verdict's trackingType is `"GTM (client-side)"` exactly when the
derived boolean `gtmLoadedInitially` holds; both are computed from the same
predicate (some recorded URL contains `googletagmanager.com/gtm.js`). -/
theorem trackingType_gtm_iff_gtmLoadedInitially (s : AggState) :
    trackingType s = "GTM (client-side)" ↔ gtmLoadedInitially s = true := by
  have hcg : condGtmJs s = gtmLoadedInitially s := rfl
  cases h1 : condGtmJs s <;> cases h2 : condCustom s <;> cases h3 : condGtagJs s <;>
    cases h4 : condGa s <;> cases h5 : condNoSignals s <;> cases h6 : condBlocked s <;>
    rw [← hcg] <;>
    simp [trackingType, h1, h2, h3, h4, h5, h6]

/-! ### C1 — the `"GA4 Server-Side (custom endpoint)"` case -/

/-- Claim C1, counterexample: an analysis whose only tracking request goes to
`google-analytics.com` (no `gtm.js`, no `gtag/js` URL) with a `tid=G-` id is
labeled `"GA4 Server-Side (custom endpoint)"`, not
`"Google Analytics (client-side)"`: the middle `hasCustomAnalytics` disjunct
`url.includes('analytics.')` is satisfied by `google-analytics.com` itself,
so the "custom analytics" signal does not require a non-Google domain. -/
theorem gaOnly_labeled_server_side :
    let s := observeRequest emptyAgg gaOnlyUrl
    includesStr gaOnlyUrl "google-analytics.com" = true ∧
    condGtmJs s = false ∧
    s.networkRequests.any (fun url => includesStr url "googletagmanager.com/gtag/js") = false ∧
    trackingType s = "GA4 Server-Side (custom endpoint)" ∧
    trackingType s ≠ "Google Analytics (client-side)" := by
  decide

/-- Claim C1, amended: in any aggregate state with no `googletagmanager.com/gtm.js`
URL, the label is `"GA4 Server-Side (custom endpoint)"` iff at least one GA4
identifier was collected and `hasCustomAnalytics` holds of the recorded URLs
— where the `analytics.` disjunct of `hasCustomAnalytics` has no non-Google
restriction, so `google-analytics.com` requests themselves satisfy it. -/
theorem trackingType_custom_characterization (s : AggState)
    (h : condGtmJs s = false) :
    trackingType s = "GA4 Server-Side (custom endpoint)" ↔
      (hasCustomAnalytics s.networkRequests = true ∧ s.ga4Ids ≠ []) := by
  have hiff : (hasCustomAnalytics s.networkRequests = true ∧ s.ga4Ids ≠ []) ↔
      condCustom s = true := by
    simp [condCustom, Bool.and_eq_true, List.isEmpty_iff]
  rw [hiff]
  cases h2 : condCustom s <;> cases h3 : condGtagJs s <;> cases h4 : condGa s <;>
    cases h5 : condNoSignals s <;> cases h6 : condBlocked s <;>
    simp [trackingType, h, h2, h3, h4, h5, h6]

/-- Claim C1, witness: the characterization applied to the concrete
`google-analytics.com`-only observation. -/
theorem trackingType_custom_characterization_holds :
    trackingType (observeRequest emptyAgg gaOnlyUrl) = "GA4 Server-Side (custom endpoint)" :=
  (trackingType_custom_characterization (observeRequest emptyAgg gaOnlyUrl)
    (by decide)).mpr (by decide)

/-! ### C2 — the all-empty analysis -/

/-- Claim C2, counterexample: an analysis with zero observations assembles a Verdict
whose trackingType is `"Possibly server-side (no GTM/GA requests detected)"`
(cascade case 5 fires on the empty aggregate), not `"Unknown"` as the claim
requires. -/
theorem emptyAnalysis_not_unknown :
    (runAnalysis [] []).trackingType = "Possibly server-side (no GTM/GA requests detected)" ∧
    (runAnalysis [] []).trackingType ≠ "Unknown" := by
  decide

/-- Claim C2, amended: with zero observations the engine still assembles a complete
Verdict — empty identifier sets, all counters zero, consent mode not
detected, no consent states — but its trackingType is
`"Possibly server-side (no GTM/GA requests detected)"`, since the empty
aggregate satisfies cascade condition 5; the spec's `"Unknown"` arises only
on the error path, where no trackingType is computed at all and the exporter
substitutes the default. -/
theorem emptyAnalysis_verdict :
    runAnalysis [] [] =
      { gtmIds := [], ga4Ids := [], gtm := 0, ga := 0, other := 0,
        consentDetected := false, consentVersion := "Unknown", consentStates := [],
        trackingType := "Possibly server-side (no GTM/GA requests detected)",
        gtmLoadedInitially := false, gaCookielessHits := false,
        networkRequests := 0 } := by
  decide

/-! ### C3 — content scanning and GA4 identifiers -/

/-- Claim C3, counterexample: a script text containing the GA4 measurement id
`G-QWERTY1` (a `G-[A-Z0-9]+` match) contributes NO GA4 identifier — the
content scans only run the `GTM-[A-Z0-9]+` pattern — and the resulting
analysis with zero requests is labeled by cascade case 5, not
`"GA4 loaded but consent-blocked"`. -/
theorem ga4ContentId_not_recorded :
    includesStr ga4ScriptText "G-QWERTY1" = true ∧
    (runAnalysis [] [ga4ScriptText]).ga4Ids = [] ∧
    (runAnalysis [] [ga4ScriptText]).trackingType =
      "Possibly server-side (no GTM/GA requests detected)" ∧
    (runAnalysis [] [ga4ScriptText]).trackingType ≠ "GA4 loaded but consent-blocked" := by
  decide

/-- Claim C3, amended: the content extractor records `GTM-[A-Z0-9]+` matches only;
it never touches the GA4 identifier set (`G-[A-Z0-9]+` occurrences in page or
script text are not collected), so an analysis whose only evidence is a
script referencing `G-QWERTY1` ends as
`"Possibly server-side (no GTM/GA requests detected)"`. -/
theorem observeContent_ga4_unchanged :
    (∀ (s : AggState) (text : String),
      (observeContent s text).ga4Ids = s.ga4Ids ∧
      (observeContent s text).gtmIds = addAll s.gtmIds (gtmMatch3 text)) ∧
    (runAnalysis [] [ga4ScriptText]).trackingType =
      "Possibly server-side (no GTM/GA requests detected)" :=
  ⟨fun _ _ => ⟨rfl, rfl⟩, by decide⟩

/-! ### C9 — which URLs the aggregate records -/

/-- Claim C9, counterexample: a request categorized `other` is NOT appended to
`networkRequests` — after observing `https://example.com/page` the list is
still empty even though the `other` counter shows the request was observed —
so the recorded list does not contain every observed URL. -/
theorem otherUrl_not_recorded :
    (observeRequest emptyAgg otherUrl).other = 1 ∧
    (observeRequest emptyAgg otherUrl).networkRequests = [] ∧
    otherUrl ∉ (observeRequest emptyAgg otherUrl).networkRequests := by
  decide

/-- Claim C9, amended: the handler appends a URL to `networkRequests` exactly when
it categorizes it `gtm` or `ga`; `other`-category URLs are dropped from the
list, so the classifier's URL checks and the reported request count range
only over the `gtm`/`ga` requests, in arrival order. -/
theorem networkRequests_spec (s : AggState) (u : String) :
    (observeRequest s u).networkRequests =
      s.networkRequests ++ (if reqCategory u = ReqCategory.other then [] else [u]) := by
  cases b1 : includesStr u "googletagmanager.com" <;>
  cases b2 : includesStr u "google-analytics.com" <;>
  cases b3 : (includesStr u "/g/collect" || includesStr u "analytics."
      || (tidMatchCS u).isSome) <;>
  cases b4 : tidMatchCI u <;>
  simp [observeRequest, reqCategory, b1, b2, b3, b4]

/-! ### C8 — feeding the same request twice -/

/-- One observation adds exactly one to the counter of the category the
handler assigns to the URL and leaves the two other counters unchanged. -/
theorem counterOf_observeRequest (s : AggState) (u : String) (c : ReqCategory) :
    counterOf (observeRequest s u) c =
      counterOf s c + (if c = reqCategory u then 1 else 0) := by
  cases b1 : includesStr u "googletagmanager.com" <;>
  cases b2 : includesStr u "google-analytics.com" <;>
  cases b3 : (includesStr u "/g/collect" || includesStr u "analytics."
      || (tidMatchCS u).isSome) <;>
  cases b4 : tidMatchCI u <;>
  cases c <;>
  simp [observeRequest, reqCategory, counterOf, b1, b2, b3, b4]

/-- Re-observing the same URL leaves the GTM id set unchanged. -/
theorem gtmIds_observeRequest_idem (s : AggState) (u : String) :
    (observeRequest (observeRequest s u) u).gtmIds = (observeRequest s u).gtmIds := by
  cases b1 : includesStr u "googletagmanager.com" <;>
  cases b2 : includesStr u "google-analytics.com" <;>
  cases b3 : (includesStr u "/g/collect" || includesStr u "analytics."
      || (tidMatchCS u).isSome) <;>
  cases b4 : tidMatchCI u <;>
  simp [observeRequest, b1, b2, b3, b4, gtmUpdate_idem]

/-- Re-observing the same URL leaves the GA4 id set unchanged. -/
theorem ga4Ids_observeRequest_idem (s : AggState) (u : String) :
    (observeRequest (observeRequest s u) u).ga4Ids = (observeRequest s u).ga4Ids := by
  cases b1 : includesStr u "googletagmanager.com" <;>
  cases b2 : includesStr u "google-analytics.com" <;>
  cases b3 : (includesStr u "/g/collect" || includesStr u "analytics."
      || (tidMatchCS u).isSome) <;>
  cases b4 : tidMatchCI u <;>
  simp [observeRequest, b1, b2, b3, b4, addOpt_idem, addId_idem]

/-- Observation preserves freedom from duplicates in the GTM id set. -/
theorem gtmIds_observeRequest_nodup (s : AggState) (u : String) (h : s.gtmIds.Nodup) :
    (observeRequest s u).gtmIds.Nodup := by
  cases b1 : includesStr u "googletagmanager.com" <;>
  cases b2 : includesStr u "google-analytics.com" <;>
  cases b3 : (includesStr u "/g/collect" || includesStr u "analytics."
      || (tidMatchCS u).isSome) <;>
  cases b4 : tidMatchCI u <;>
  simp [observeRequest, b1, b2, b3, b4] <;>
  first
    | exact h
    | exact nodup_addAll _ (nodup_addOpt _ (nodup_addOpt _ h))

/-- Observation preserves freedom from duplicates in the GA4 id set. -/
theorem ga4Ids_observeRequest_nodup (s : AggState) (u : String) (h : s.ga4Ids.Nodup) :
    (observeRequest s u).ga4Ids.Nodup := by
  cases b1 : includesStr u "googletagmanager.com" <;>
  cases b2 : includesStr u "google-analytics.com" <;>
  cases b3 : (includesStr u "/g/collect" || includesStr u "analytics."
      || (tidMatchCS u).isSome) <;>
  cases b4 : tidMatchCI u <;>
  simp [observeRequest, b1, b2, b3, b4] <;>
  first
    | exact h
    | exact nodup_addOpt _ h
    | exact nodup_addId h

/-- Claim C8: feeding the same ObservedRequest twice yields exactly the identifier
sets of feeding it once (both still duplicate-free), while the one category
counter the request affects is incremented twice and the others are
untouched. -/
theorem observeRequest_twice (s : AggState) (u : String)
    (hg : s.gtmIds.Nodup) (h4 : s.ga4Ids.Nodup) :
    (observeRequest (observeRequest s u) u).gtmIds = (observeRequest s u).gtmIds ∧
    (observeRequest (observeRequest s u) u).ga4Ids = (observeRequest s u).ga4Ids ∧
    (observeRequest (observeRequest s u) u).gtmIds.Nodup ∧
    (observeRequest (observeRequest s u) u).ga4Ids.Nodup ∧
    (∀ c : ReqCategory,
      counterOf (observeRequest (observeRequest s u) u) c =
        counterOf s c + 2 * (if c = reqCategory u then 1 else 0)) := by
  refine ⟨gtmIds_observeRequest_idem s u, ga4Ids_observeRequest_idem s u,
    gtmIds_observeRequest_nodup _ u (gtmIds_observeRequest_nodup s u hg),
    ga4Ids_observeRequest_nodup _ u (ga4Ids_observeRequest_nodup s u h4),
    fun c => ?_⟩
  rw [counterOf_observeRequest, counterOf_observeRequest]
  by_cases hc : c = reqCategory u <;> simp [hc]

/-- Claim C8, witness: the double-observation law at a concrete GA request on a
fresh (duplicate-free) aggregate, checked on the `ga` counter. -/
theorem observeRequest_twice_holds :
    counterOf (observeRequest (observeRequest emptyAgg gaOnlyUrl) gaOnlyUrl) ReqCategory.ga =
      counterOf emptyAgg ReqCategory.ga +
        2 * (if ReqCategory.ga = reqCategory gaOnlyUrl then 1 else 0) :=
  (observeRequest_twice emptyAgg gaOnlyUrl (by decide) (by decide)).2.2.2.2 ReqCategory.ga

end TrackingVer
